import Mathlib

/-!
Shallow embedding of the user registration/lookup HTTP handler of
`src/handlers_cr.go` (package `handlers`, functions `CreateUser` and `GetUser`).

Modelling conventions:
- The JSON body of a registration request is `Option CreatePayload`: `none`
  models a body that `json.NewDecoder(...).Decode` fails to decode.
- The database (`h.db`, an external collaborator reached through
  `QueryRow(...).Scan(...)`) is a `DbConn`: one field per SQL statement the
  handler issues, each returning `QueryRes` (`ok` = a row was scanned,
  `noRows` = `sql.ErrNoRows`, `err` = any other store error).
  `sqlConn st` is the honest relational semantics of those statements over a
  `Store` (a `users` table as a list of rows plus the next generated id);
  its id lookup casts the string parameter to an integer and fails on
  non-integer input, as a SQL store does with `WHERE id = $1`.
- Handlers return the `HttpResp` they write plus the trace of store
  operations (`DbOp`) they performed, in order; `applyOps` gives the store
  mutation those operations cause.
- `HttpResp.contentTypeJson` records whether the handler executed
  `w.Header().Set` with the JSON content type before writing the response.
- `time.Now()` is modelled by explicit `Nat` timestamps (seconds since the
  Unix epoch): `CreateUser` reads the clock twice on its success path (once
  for the inserted `created_at`, once for the response body), so `createUser`
  takes two timestamps.  `formatRFC3339` embeds Go's
  `time.Time.Format(time.RFC3339)` for UTC instants.
- Go's `len` on a string is its UTF-8 byte length, embedded as
  `String.utf8ByteSize`; `strings.TrimSpace` is embedded as `trimSpace`
  (leading/trailing whitespace removal).
-/

/-- Character class `[a-zA-Z0-9._%+\-]` of the local part of the email
regular expression at handlers_cr.go:36. -/
def localChar (c : Char) : Bool :=
  c.isAlpha || c.isDigit || c = '.' || c = '_' || c = '%' || c = '+' || c = '-'

/-- Character class `[a-zA-Z0-9.\-]` of the domain part of the email
regular expression at handlers_cr.go:36. -/
def domChar (c : Char) : Bool :=
  c.isAlpha || c.isDigit || c = '.' || c = '-'

/-- Character class `[a-zA-Z]` of the top-level-domain part of the email
regular expression at handlers_cr.go:36. -/
def tldChar (c : Char) : Bool :=
  c.isAlpha

/-- Matcher for the anchored regular expression
`^[a-zA-Z0-9._%+\-]+@[a-zA-Z0-9.\-]+\.[a-zA-Z]{2,}$` of handlers_cr.go:36.
Scanning from the right: the `[a-zA-Z]{2,}$` part must be the maximal
trailing run of letters (at least two), preceded by the literal dot,
preceded by a nonempty run of domain characters (reaching back to the `@`,
since `@` is in neither class), preceded by a nonempty local part. -/
def emailMatch (s : String) : Bool :=
  let r := s.data.reverse
  match r.dropWhile tldChar with
  | '.' :: rest =>
      decide (2 ≤ (r.takeWhile tldChar).length) &&
      (match rest.dropWhile domChar with
       | '@' :: l => !(rest.takeWhile domChar).isEmpty && !l.isEmpty && l.all localChar
       | _ => false)
  | _ => false

/-- Embedding of `strings.TrimSpace`: drop leading and trailing whitespace. -/
def trimSpace (s : String) : String :=
  String.mk (((s.data.dropWhile Char.isWhitespace).reverse.dropWhile Char.isWhitespace).reverse)

/-- The decoded registration request body (the anonymous struct of
handlers_cr.go:23-28). -/
structure CreatePayload where
  email : String
  password : String
  name : String
  age : Int
deriving Repr, DecidableEq

/-- A persisted row of the `users` table. -/
structure Row where
  id : Int
  email : String
  passwordHash : String
  name : String
  age : Int
  createdAt : Nat
deriving Repr, DecidableEq

/-- Outcome of a `QueryRow(...).Scan(...)` call: a scanned value,
`sql.ErrNoRows`, or any other store error (with its message). -/
inductive QueryRes (α : Type) where
  | ok (a : α)
  | noRows
  | err (msg : String)
deriving Repr, DecidableEq

/-- Body of a JSON response written by the handlers: the one-key error map,
the 201 creation map (handlers_cr.go:89-96), or the lookup map
(handlers_cr.go:133-139). -/
inductive RespBody where
  | errorMsg (msg : String)
  | created (id : Int) (email name : String) (age : Int) (createdAt message : String)
  | fetched (id : Int) (email name : String) (age : Int) (createdAt : String)
deriving Repr, DecidableEq

/-- An HTTP response as the handlers produce it: status code, whether the
`Content-Type: application/json` header was set before writing, body. -/
structure HttpResp where
  status : Nat
  contentTypeJson : Bool
  body : RespBody
deriving Repr, DecidableEq

/-- A store operation issued by a handler, with the parameters it passed. -/
inductive DbOp where
  | selectByEmail (email : String)
  | insert (email passwordHash name : String) (age : Int) (createdAt : Nat)
  | selectById (idStr : String)
deriving Repr, DecidableEq

/-- The database connection, one field per SQL statement the handlers issue. -/
structure DbConn where
  selectIdByEmail : String → QueryRes Int
  insertUser : String → String → String → Int → Nat → QueryRes Int
  selectUserById : String → QueryRes Row

/-- Calendar conversion (days since 1970-01-01 to year/month/day), the
proleptic Gregorian arithmetic underlying Go's `time.Format`. -/
def daysToCivil (z : Nat) : Nat × Nat × Nat :=
  let z2 := z + 719468
  let era := z2 / 146097
  let doe := z2 % 146097
  let yoe := (doe - doe / 1460 + doe / 36524 - doe / 146096) / 365
  let y := yoe + era * 400
  let doy := doe - (365 * yoe + yoe / 4 - yoe / 100)
  let mp := (5 * doy + 2) / 153
  let d := doy - (153 * mp + 2) / 5 + 1
  let m := if mp < 10 then mp + 3 else mp - 9
  (if m ≤ 2 then y + 1 else y, m, d)

/-- Left-pad a number to two digits. -/
def pad2 (n : Nat) : String :=
  if n < 10 then "0" ++ toString n else toString n

/-- Left-pad a number to four digits. -/
def pad4 (n : Nat) : String :=
  if n < 10 then "000" ++ toString n
  else if n < 100 then "00" ++ toString n
  else if n < 1000 then "0" ++ toString n
  else toString n

/-- Embedding of `time.Time.Format(time.RFC3339)` for a UTC instant given in
seconds since the Unix epoch. -/
def formatRFC3339 (t : Nat) : String :=
  let days := t / 86400
  let secs := t % 86400
  let c := daysToCivil days
  pad4 c.1 ++ "-" ++ pad2 c.2.1 ++ "-" ++ pad2 c.2.2 ++ "T" ++
    pad2 (secs / 3600) ++ ":" ++ pad2 (secs % 3600 / 60) ++ ":" ++
    pad2 (secs % 60) ++ "Z"

/-- Embedding of `CreateUser` (handlers_cr.go:22-101).  `reqBody` is the
decode outcome, `tInsert` and `tResp` the two `time.Now()` readings (lines
81 and 94).  Returns the response written and the trace of store operations
performed. -/
def createUser (db : DbConn) (reqBody : Option CreatePayload) (tInsert tResp : Nat) :
    HttpResp × List DbOp :=
  match reqBody with
  | none => (⟨400, false, RespBody.errorMsg "Invalid JSON"⟩, [])
  | some request =>
    if !emailMatch request.email then
      (⟨400, false, RespBody.errorMsg "Invalid email format"⟩, [])
    else if request.password.utf8ByteSize < 8 then
      (⟨400, false, RespBody.errorMsg "Password must be at least 8 characters"⟩, [])
    else if trimSpace request.name = "" then
      (⟨400, false, RespBody.errorMsg "Name is required"⟩, [])
    else if request.age < 18 ∨ request.age > 120 then
      (⟨400, false, RespBody.errorMsg "Age must be between 18 and 120"⟩, [])
    else
      match db.selectIdByEmail request.email with
      | QueryRes.err _ =>
          (⟨500, false, RespBody.errorMsg "Internal server error"⟩,
           [DbOp.selectByEmail request.email])
      | QueryRes.ok _ =>
          (⟨409, false, RespBody.errorMsg "User with this email already exists"⟩,
           [DbOp.selectByEmail request.email])
      | QueryRes.noRows =>
          let hashedPassword := "hashed_" ++ request.password
          match db.insertUser request.email hashedPassword request.name request.age tInsert with
          | QueryRes.ok userID =>
              (⟨201, true,
                RespBody.created userID request.email request.name request.age
                  (formatRFC3339 tResp) "User created successfully"⟩,
               [DbOp.selectByEmail request.email,
                DbOp.insert request.email hashedPassword request.name request.age tInsert])
          | QueryRes.noRows =>
              (⟨500, false, RespBody.errorMsg "Failed to create user"⟩,
               [DbOp.selectByEmail request.email,
                DbOp.insert request.email hashedPassword request.name request.age tInsert])
          | QueryRes.err _ =>
              (⟨500, false, RespBody.errorMsg "Failed to create user"⟩,
               [DbOp.selectByEmail request.email,
                DbOp.insert request.email hashedPassword request.name request.age tInsert])

/-- Embedding of `GetUser` (handlers_cr.go:103-143).  `userIDStr` is
`r.URL.Query().Get("id")`, which is `""` both when the parameter is missing
and when it is empty. -/
def getUser (db : DbConn) (userIDStr : String) : HttpResp × List DbOp :=
  if userIDStr = "" then
    (⟨400, false, RespBody.errorMsg "User ID is required"⟩, [])
  else
    match db.selectUserById userIDStr with
    | QueryRes.noRows =>
        (⟨404, false, RespBody.errorMsg "User not found"⟩, [DbOp.selectById userIDStr])
    | QueryRes.err _ =>
        (⟨500, false, RespBody.errorMsg "Internal server error"⟩, [DbOp.selectById userIDStr])
    | QueryRes.ok row =>
        (⟨200, true,
          RespBody.fetched row.id row.email row.name row.age (formatRFC3339 row.createdAt)⟩,
         [DbOp.selectById userIDStr])

/-- The `users` table plus the next identifier the store will generate. -/
structure Store where
  rows : List Row
  nextId : Int
deriving Repr, DecidableEq

/-- Numeric value of a digit string. -/
def natOfDigits (ds : List Char) : Nat :=
  ds.foldl (fun n c => 10 * n + (c.toNat - 48)) 0

/-- The store's cast of a string parameter to an integer (the `WHERE id = $1`
comparison against an integer column): a nonempty digit string, optionally
preceded by a minus sign; anything else is a cast error. -/
def parseIntStr (s : String) : Option Int :=
  match s.data with
  | [] => none
  | '-' :: ds =>
      if ds ≠ [] ∧ ds.all Char.isDigit then some (-(natOfDigits ds : Int)) else none
  | ds =>
      if ds.all Char.isDigit then some ((natOfDigits ds : Nat) : Int) else none

/-- Honest semantics of `SELECT id FROM users WHERE email = $1`. -/
def selectIdByEmailSql (st : Store) (email : String) : QueryRes Int :=
  match st.rows.find? (fun r => r.email == email) with
  | some r => QueryRes.ok r.id
  | none => QueryRes.noRows

/-- Honest semantics of `SELECT id, email, name, age, created_at FROM users
WHERE id = $1` with a string-typed parameter: cast the parameter, then look
the row up; a non-integer parameter is a store error. -/
def selectUserByIdSql (st : Store) (s : String) : QueryRes Row :=
  match parseIntStr s with
  | none => QueryRes.err ("invalid input syntax for type integer: " ++ s)
  | some n =>
      match st.rows.find? (fun r => r.id == n) with
      | some r => QueryRes.ok r
      | none => QueryRes.noRows

/-- Honest connection over a store state: the `INSERT ... RETURNING id`
statement returns the store's next generated identifier. -/
def sqlConn (st : Store) : DbConn :=
  ⟨selectIdByEmailSql st, fun _ _ _ _ _ => QueryRes.ok st.nextId, selectUserByIdSql st⟩

/-- Mutation a single store operation causes: only the INSERT changes the
table, appending the row with the generated identifier. -/
def applyOp (st : Store) : DbOp → Store
  | DbOp.insert e h n a t => ⟨st.rows ++ [⟨st.nextId, e, h, n, a, t⟩], st.nextId + 1⟩
  | _ => st

/-- Mutation a trace of store operations causes, in order. -/
def applyOps (st : Store) (ops : List DbOp) : Store :=
  ops.foldl applyOp st

/-- Conjunction of the four field checks of `CreateUser`
(handlers_cr.go:36-59), in source order. -/
def passesValidation (r : CreatePayload) : Bool :=
  emailMatch r.email && !(r.password.utf8ByteSize < 8) &&
    !(trimSpace r.name == "") && !(r.age < 18 || r.age > 120)

/-- C1: the five validation checks of the registration operation run in
source order (decode, email format, password length, trimmed-name nonempty,
age range); the first failure short-circuits into the corresponding 400
response without the JSON content type set, and the store-operation trace is
empty, so neither the existence check nor the insert reaches the store and
the store is unchanged. -/
theorem c1_validation_order (db : DbConn) (t1 t2 : Nat) :
    (createUser db none t1 t2 = (⟨400, false, RespBody.errorMsg "Invalid JSON"⟩, [])) ∧
    (∀ req : CreatePayload, emailMatch req.email = false →
      createUser db (some req) t1 t2 =
        (⟨400, false, RespBody.errorMsg "Invalid email format"⟩, [])) ∧
    (∀ req : CreatePayload, emailMatch req.email = true →
      req.password.utf8ByteSize < 8 →
      createUser db (some req) t1 t2 =
        (⟨400, false, RespBody.errorMsg "Password must be at least 8 characters"⟩, [])) ∧
    (∀ req : CreatePayload, emailMatch req.email = true →
      ¬ req.password.utf8ByteSize < 8 → trimSpace req.name = "" →
      createUser db (some req) t1 t2 =
        (⟨400, false, RespBody.errorMsg "Name is required"⟩, [])) ∧
    (∀ req : CreatePayload, emailMatch req.email = true →
      ¬ req.password.utf8ByteSize < 8 → trimSpace req.name ≠ "" →
      (req.age < 18 ∨ req.age > 120) →
      createUser db (some req) t1 t2 =
        (⟨400, false, RespBody.errorMsg "Age must be between 18 and 120"⟩, [])) ∧
    (∀ st : Store, applyOps st [] = st) := by
  refine ⟨rfl, ?_, ?_, ?_, ?_, fun _ => rfl⟩
  · intro req he
    simp [createUser, he]
  · intro req he hp
    simp [createUser, he, hp]
  · intro req he hp hn
    simp [createUser, he, hp, hn]
  · intro req he hp hn ha
    simp [createUser, he, hp, hn, ha]

/-- Witness for C1 at concrete requests: each of the five checks fails on
its own concrete input and produces the corresponding response with no
store operation. -/
theorem c1_validation_order_witness :
    createUser (sqlConn ⟨[], 1⟩) none 0 0 =
      (⟨400, false, RespBody.errorMsg "Invalid JSON"⟩, []) ∧
    createUser (sqlConn ⟨[], 1⟩) (some ⟨"not-an-email", "password123", "Ann", 30⟩) 0 0 =
      (⟨400, false, RespBody.errorMsg "Invalid email format"⟩, []) ∧
    createUser (sqlConn ⟨[], 1⟩) (some ⟨"a@b.co", "short12", "Ann", 30⟩) 0 0 =
      (⟨400, false, RespBody.errorMsg "Password must be at least 8 characters"⟩, []) ∧
    createUser (sqlConn ⟨[], 1⟩) (some ⟨"a@b.co", "password123", "   ", 30⟩) 0 0 =
      (⟨400, false, RespBody.errorMsg "Name is required"⟩, []) ∧
    createUser (sqlConn ⟨[], 1⟩) (some ⟨"a@b.co", "password123", "Ann", 17⟩) 0 0 =
      (⟨400, false, RespBody.errorMsg "Age must be between 18 and 120"⟩, []) :=
  ⟨(c1_validation_order (sqlConn ⟨[], 1⟩) 0 0).1,
   (c1_validation_order (sqlConn ⟨[], 1⟩) 0 0).2.1 _ (by decide),
   (c1_validation_order (sqlConn ⟨[], 1⟩) 0 0).2.2.1 _ (by decide) (by decide),
   (c1_validation_order (sqlConn ⟨[], 1⟩) 0 0).2.2.2.1 _ (by decide) (by decide) (by decide),
   (c1_validation_order (sqlConn ⟨[], 1⟩) 0 0).2.2.2.2.1 _ (by decide) (by decide) (by decide)
     (by decide)⟩

/-- C2: a fully validated registration whose email matches an existing row
of the store returns 409 with the duplicate-email message, the only store
operation performed is the existence check, and applying the trace leaves
the store unchanged (no insert happens). -/
theorem c2_duplicate_email (st : Store) (req : CreatePayload) (t1 t2 : Nat) (r : Row)
    (hv : passesValidation req = true)
    (hfind : st.rows.find? (fun row => row.email == req.email) = some r) :
    createUser (sqlConn st) (some req) t1 t2 =
      (⟨409, false, RespBody.errorMsg "User with this email already exists"⟩,
       [DbOp.selectByEmail req.email]) ∧
    applyOps st [DbOp.selectByEmail req.email] = st := by
  simp only [passesValidation, Bool.and_eq_true, Bool.not_eq_true', decide_eq_false_iff_not,
    beq_eq_false_iff_ne, ne_eq, Bool.or_eq_false_iff] at hv
  obtain ⟨⟨⟨he, hp⟩, hn⟩, ha1, ha2⟩ := hv
  constructor
  · simp [createUser, he, hp, hn, sqlConn, selectIdByEmailSql, hfind]
    omega
  · rfl

/-- Witness for C2: a second registration with email already in the store. -/
theorem c2_duplicate_email_witness :
    createUser (sqlConn ⟨[⟨1, "x@y.com", "hashed_password123", "Xavier", 40, 0⟩], 2⟩)
        (some ⟨"x@y.com", "password123", "Ann", 30⟩) 5 6 =
      (⟨409, false, RespBody.errorMsg "User with this email already exists"⟩,
       [DbOp.selectByEmail "x@y.com"]) ∧
    applyOps ⟨[⟨1, "x@y.com", "hashed_password123", "Xavier", 40, 0⟩], 2⟩
        [DbOp.selectByEmail "x@y.com"] =
      ⟨[⟨1, "x@y.com", "hashed_password123", "Xavier", 40, 0⟩], 2⟩ :=
  c2_duplicate_email ⟨[⟨1, "x@y.com", "hashed_password123", "Xavier", 40, 0⟩], 2⟩
    ⟨"x@y.com", "password123", "Ann", 30⟩ 5 6 ⟨1, "x@y.com", "hashed_password123", "Xavier", 40, 0⟩
    (by decide) (by decide)

/-- Counterexample for C4: a validated registration whose name is " Ann "
(nonempty after trimming) inserts the raw, untrimmed name " Ann " — the
stored name is not the trim of the submitted name. -/
theorem c4_counterexample :
    (createUser (sqlConn ⟨[], 1⟩) (some ⟨"a@b.com", "password123", " Ann ", 30⟩) 0 0).2 =
      [DbOp.selectByEmail "a@b.com",
       DbOp.insert "a@b.com" "hashed_password123" " Ann " 30 0] ∧
    trimSpace " Ann " = "Ann" ∧ " Ann " ≠ "Ann" := by
  decide

/-- C4 as amended: the row inserted by a registration that passes validation
and the duplicate check carries the submitted name unmodified (trimming is
applied only in the emptiness validation, not to the stored value); this
holds whatever the insert outcome is. -/
theorem c4_amended (db : DbConn) (req : CreatePayload) (t1 t2 : Nat)
    (hv : passesValidation req = true)
    (hsel : db.selectIdByEmail req.email = QueryRes.noRows) :
    (createUser db (some req) t1 t2).2 =
      [DbOp.selectByEmail req.email,
       DbOp.insert req.email ("hashed_" ++ req.password) req.name req.age t1] := by
  simp only [passesValidation, Bool.and_eq_true, Bool.not_eq_true', decide_eq_false_iff_not,
    beq_eq_false_iff_ne, ne_eq, Bool.or_eq_false_iff] at hv
  obtain ⟨⟨⟨he, hp⟩, hn⟩, ha1, ha2⟩ := hv
  cases hins : db.insertUser req.email ("hashed_" ++ req.password) req.name req.age t1 <;>
    simp [createUser, he, hp, hn, hsel, hins, ha1, ha2]

/-- Witness for C4 as amended, at a concrete request with whitespace around
the name. -/
theorem c4_amended_witness :
    (createUser (sqlConn ⟨[], 1⟩) (some ⟨"a@b.com", "password123", " Ann ", 30⟩) 0 0).2 =
      [DbOp.selectByEmail "a@b.com",
       DbOp.insert "a@b.com" "hashed_password123" " Ann " 30 0] :=
  c4_amended (sqlConn ⟨[], 1⟩) ⟨"a@b.com", "password123", " Ann ", 30⟩ 0 0
    (by decide) (by decide)

/-- C5: lookup against the honest store semantics: an empty (or missing) id
parameter yields 400 "User ID is required" with no store operation; an id
that casts to an integer matching no row yields 404; an id matching a row
yields 200 carrying exactly the stored id, email, name, age, and created_at
rendered by the RFC 3339 (ISO-8601) formatter. -/
theorem c5_lookup (st : Store) :
    (getUser (sqlConn st) "" = (⟨400, false, RespBody.errorMsg "User ID is required"⟩, [])) ∧
    (∀ (s : String) (n : Int), s ≠ "" → parseIntStr s = some n →
      st.rows.find? (fun r => r.id == n) = none →
      getUser (sqlConn st) s =
        (⟨404, false, RespBody.errorMsg "User not found"⟩, [DbOp.selectById s])) ∧
    (∀ (s : String) (n : Int) (row : Row), s ≠ "" → parseIntStr s = some n →
      st.rows.find? (fun r => r.id == n) = some row →
      getUser (sqlConn st) s =
        (⟨200, true,
          RespBody.fetched row.id row.email row.name row.age (formatRFC3339 row.createdAt)⟩,
         [DbOp.selectById s])) := by
  refine ⟨by simp [getUser], ?_, ?_⟩
  · intro s n hs hp hfind
    simp [getUser, hs, sqlConn, selectUserByIdSql, hp, hfind]
  · intro s n row hs hp hfind
    simp [getUser, hs, sqlConn, selectUserByIdSql, hp, hfind]

/-- Witness for C5 at a concrete store: empty id, an absent id "2", and a
present id "1" whose stored fields come back verbatim. -/
theorem c5_lookup_witness :
    getUser (sqlConn ⟨[⟨1, "a@b.com", "hashed_password123", "Ann", 30, 0⟩], 2⟩) "" =
      (⟨400, false, RespBody.errorMsg "User ID is required"⟩, []) ∧
    getUser (sqlConn ⟨[⟨1, "a@b.com", "hashed_password123", "Ann", 30, 0⟩], 2⟩) "2" =
      (⟨404, false, RespBody.errorMsg "User not found"⟩, [DbOp.selectById "2"]) ∧
    getUser (sqlConn ⟨[⟨1, "a@b.com", "hashed_password123", "Ann", 30, 0⟩], 2⟩) "1" =
      (⟨200, true, RespBody.fetched 1 "a@b.com" "Ann" 30 "1970-01-01T00:00:00Z"⟩,
       [DbOp.selectById "1"]) := by
  refine ⟨(c5_lookup _).1,
    (c5_lookup _).2.1 "2" 2 (by decide) (by decide) (by decide),
    ?_⟩
  have h := (c5_lookup ⟨[⟨1, "a@b.com", "hashed_password123", "Ann", 30, 0⟩], 2⟩).2.2 "1" 1
    ⟨1, "a@b.com", "hashed_password123", "Ann", 30, 0⟩ (by decide) (by decide) (by decide)
  rw [h]
  decide

/-- C9: every store error other than the no-rows result is mapped to a 500
response whose body is one of the two fixed generic strings — "Internal
server error" for the existence check and the lookup query, "Failed to
create user" for the insert — uniformly in the store's error message, so the
underlying store error text never reaches the response. -/
theorem c9_generic_errors (db : DbConn) (req : CreatePayload) (t1 t2 : Nat) (s msg : String)
    (hv : passesValidation req = true) :
    (db.selectIdByEmail req.email = QueryRes.err msg →
      createUser db (some req) t1 t2 =
        (⟨500, false, RespBody.errorMsg "Internal server error"⟩,
         [DbOp.selectByEmail req.email])) ∧
    (db.selectIdByEmail req.email = QueryRes.noRows →
      db.insertUser req.email ("hashed_" ++ req.password) req.name req.age t1 =
        QueryRes.err msg →
      createUser db (some req) t1 t2 =
        (⟨500, false, RespBody.errorMsg "Failed to create user"⟩,
         [DbOp.selectByEmail req.email,
          DbOp.insert req.email ("hashed_" ++ req.password) req.name req.age t1])) ∧
    (s ≠ "" → db.selectUserById s = QueryRes.err msg →
      getUser db s =
        (⟨500, false, RespBody.errorMsg "Internal server error"⟩, [DbOp.selectById s])) := by
  simp only [passesValidation, Bool.and_eq_true, Bool.not_eq_true', decide_eq_false_iff_not,
    beq_eq_false_iff_ne, ne_eq, Bool.or_eq_false_iff] at hv
  obtain ⟨⟨⟨he, hp⟩, hn⟩, ha1, ha2⟩ := hv
  refine ⟨?_, ?_, ?_⟩
  · intro hsel
    simp [createUser, he, hp, hn, hsel, ha1, ha2]
  · intro hsel hins
    simp [createUser, he, hp, hn, hsel, hins, ha1, ha2]
  · intro hs herr
    simp [getUser, hs, herr]

/-- Witness for C9: concrete failing connections for the existence check,
the insert, and the lookup query, with distinct concrete error texts. -/
theorem c9_generic_errors_witness :
    createUser ⟨fun _ => QueryRes.err "pg down", fun _ _ _ _ _ => QueryRes.err "pg down",
        fun _ => QueryRes.err "pg down"⟩
        (some ⟨"a@b.co", "password123", "Ann", 30⟩) 0 0 =
      (⟨500, false, RespBody.errorMsg "Internal server error"⟩,
       [DbOp.selectByEmail "a@b.co"]) ∧
    createUser ⟨fun _ => QueryRes.noRows, fun _ _ _ _ _ => QueryRes.err "disk full",
        fun _ => QueryRes.err "disk full"⟩
        (some ⟨"a@b.co", "password123", "Ann", 30⟩) 0 0 =
      (⟨500, false, RespBody.errorMsg "Failed to create user"⟩,
       [DbOp.selectByEmail "a@b.co",
        DbOp.insert "a@b.co" "hashed_password123" "Ann" 30 0]) ∧
    getUser ⟨fun _ => QueryRes.noRows, fun _ _ _ _ _ => QueryRes.noRows,
        fun _ => QueryRes.err "conn reset"⟩ "1" =
      (⟨500, false, RespBody.errorMsg "Internal server error"⟩, [DbOp.selectById "1"]) :=
  ⟨(c9_generic_errors _ ⟨"a@b.co", "password123", "Ann", 30⟩ 0 0 "1" "pg down"
      (by decide)).1 rfl,
   (c9_generic_errors _ ⟨"a@b.co", "password123", "Ann", 30⟩ 0 0 "1" "disk full"
      (by decide)).2.1 rfl rfl,
   (c9_generic_errors ⟨fun _ => QueryRes.noRows, fun _ _ _ _ _ => QueryRes.noRows,
      fun _ => QueryRes.err "conn reset"⟩ ⟨"a@b.co", "password123", "Ann", 30⟩ 0 0 "1"
      "conn reset" (by decide)).2.2 (by decide) rfl⟩

/-- C10: a non-empty id parameter undergoes no further validation: the raw
string is the parameter of the store query (the only traced operation), and
when the store rejects it — as the honest semantics does for every non-empty
string that is not a string-encoded integer — the result is the 500 path,
never a 400. -/
theorem c10_non_integer_id (st : Store) (s : String)
    (hs : s ≠ "") (hp : parseIntStr s = none) :
    getUser (sqlConn st) s =
      (⟨500, false, RespBody.errorMsg "Internal server error"⟩, [DbOp.selectById s]) ∧
    (getUser (sqlConn st) s).1.status ≠ 400 := by
  have h : getUser (sqlConn st) s =
      (⟨500, false, RespBody.errorMsg "Internal server error"⟩, [DbOp.selectById s]) := by
    simp [getUser, hs, sqlConn, selectUserByIdSql, hp]
  exact ⟨h, by rw [h]; simp⟩

/-- Witness for C10: the non-integer id "abc" against a concrete store. -/
theorem c10_non_integer_id_witness :
    getUser (sqlConn ⟨[⟨1, "a@b.com", "hashed_password123", "Ann", 30, 0⟩], 2⟩) "abc" =
      (⟨500, false, RespBody.errorMsg "Internal server error"⟩, [DbOp.selectById "abc"]) ∧
    (getUser (sqlConn ⟨[⟨1, "a@b.com", "hashed_password123", "Ann", 30, 0⟩], 2⟩)
        "abc").1.status ≠ 400 :=
  c10_non_integer_id ⟨[⟨1, "a@b.com", "hashed_password123", "Ann", 30, 0⟩], 2⟩ "abc"
    (by decide) (by decide)

/-- Counterexample for C6: the password check uses the byte length of the
submitted password, not its length in characters; this 7-character password
of two-byte characters (14 bytes) sails through the length check and the
registration succeeds, so not every 7-character password is rejected. -/
theorem c6_counterexample :
    ("ббббббб" : String).length = 7 ∧
    (createUser (sqlConn ⟨[], 1⟩) (some ⟨"a@b.co", "ббббббб", "Ann", 30⟩) 0 0).1.status = 201 ∧
    (createUser (sqlConn ⟨[], 1⟩) (some ⟨"a@b.co", "ббббббб", "Ann", 30⟩) 0 0).1.body ≠
      RespBody.errorMsg "Password must be at least 8 characters" := by
  decide

/-- C6 as amended: for a payload passing the email check, the password check
rejects with the 400 "Password must be at least 8 characters" response
exactly those passwords whose UTF-8 byte length is below 8 (for ASCII
passwords this coincides with the character count, so a 7-character ASCII
password is rejected and an 8-character one passes). -/
theorem c6_amended (db : DbConn) (req : CreatePayload) (t1 t2 : Nat)
    (he : emailMatch req.email = true) :
    ((createUser db (some req) t1 t2).1 =
        ⟨400, false, RespBody.errorMsg "Password must be at least 8 characters"⟩
      ↔ req.password.utf8ByteSize < 8) := by
  unfold createUser
  simp only [he, Bool.not_true, Bool.false_eq_true, if_false]
  repeat' split
  all_goals simp_all

/-- Witness for C6 as amended: the 7-byte ASCII password "short12" is
rejected by the length check. -/
theorem c6_amended_witness :
    (createUser (sqlConn ⟨[], 1⟩) (some ⟨"a@b.co", "short12", "Ann", 30⟩) 0 0).1 =
      ⟨400, false, RespBody.errorMsg "Password must be at least 8 characters"⟩ :=
  (c6_amended (sqlConn ⟨[], 1⟩) ⟨"a@b.co", "short12", "Ann", 30⟩ 0 0 (by decide)).mpr
    (by decide)

/-- Counterexample for C8: the 400 responses (here: undecodable body for
registration, missing id for lookup) are written without setting the
`Content-Type: application/json` header — the handlers set that header only
on their success paths (handlers_cr.go:98, handlers_cr.go:141), after every
error return. -/
theorem c8_counterexample :
    (createUser (sqlConn ⟨[], 1⟩) none 0 0).1.status = 400 ∧
    (createUser (sqlConn ⟨[], 1⟩) none 0 0).1.contentTypeJson = false ∧
    (getUser (sqlConn ⟨[], 1⟩) "").1.status = 400 ∧
    (getUser (sqlConn ⟨[], 1⟩) "").1.contentTypeJson = false := by
  decide

/-- C8 as amended: exactly the success responses carry the JSON content-type
header: a registration response has it set if and only if its status is 201,
and a lookup response if and only if its status is 200; every error response
(400, 404, 409, 500) of either handler lacks it. -/
theorem c8_amended (db : DbConn) (b : Option CreatePayload) (t1 t2 : Nat) (s : String) :
    ((createUser db b t1 t2).1.contentTypeJson = true ↔
      (createUser db b t1 t2).1.status = 201) ∧
    ((getUser db s).1.contentTypeJson = true ↔ (getUser db s).1.status = 200) := by
  constructor
  · rcases b with _ | req
    · simp [createUser]
    · cases he : emailMatch req.email with
      | false => simp [createUser, he]
      | true =>
        by_cases hp : req.password.utf8ByteSize < 8
        · simp [createUser, he, hp]
        · by_cases hn : trimSpace req.name = ""
          · simp [createUser, he, hp, hn]
          · by_cases ha : req.age < 18 ∨ req.age > 120
            · simp [createUser, he, hp, hn, ha]
            · cases hsel : db.selectIdByEmail req.email with
              | ok i => simp [createUser, he, hp, hn, ha, hsel]
              | noRows =>
                  cases hins : db.insertUser req.email ("hashed_" ++ req.password)
                      req.name req.age t1 <;>
                    simp [createUser, he, hp, hn, ha, hsel, hins]
              | err m => simp [createUser, he, hp, hn, ha, hsel]
  · by_cases hs : s = ""
    · simp [getUser, hs]
    · cases hq : db.selectUserById s <;> simp [getUser, hs, hq]

/-- Counterexample for C3: `CreateUser` reads the clock once for the
inserted `created_at` (handlers_cr.go:81) and again for the 201 response
body (handlers_cr.go:94); when the two readings fall in different seconds
(here epoch seconds 0 and 1), the created_at returned by the registration
differs from the created_at a subsequent lookup returns, so the fields do
not all match. -/
theorem c3_counterexample :
    (createUser (sqlConn ⟨[], 1⟩) (some ⟨"a@b.com", "password123", "Ann", 30⟩) 0 1).1 =
      ⟨201, true, RespBody.created 1 "a@b.com" "Ann" 30 "1970-01-01T00:00:01Z"
        "User created successfully"⟩ ∧
    getUser (sqlConn (applyOps ⟨[], 1⟩
        (createUser (sqlConn ⟨[], 1⟩) (some ⟨"a@b.com", "password123", "Ann", 30⟩) 0 1).2)) "1" =
      (⟨200, true, RespBody.fetched 1 "a@b.com" "Ann" 30 "1970-01-01T00:00:00Z"⟩,
       [DbOp.selectById "1"]) ∧
    ("1970-01-01T00:00:00Z" : String) ≠ "1970-01-01T00:00:01Z" := by
  decide

/-- C3 as amended: a valid registration against a store with no conflicting
email and a fresh next identifier returns 201 with the generated id, and a
lookup by that id returns 200 whose id, email, name, and age match the 201
response exactly; the created_at fields match provided the two clock
readings taken during registration render to the same RFC 3339 second. -/
theorem c3_amended (st : Store) (req : CreatePayload) (t1 t2 : Nat) (s : String)
    (hv : passesValidation req = true)
    (hnodup : st.rows.find? (fun r => r.email == req.email) = none)
    (hfresh : st.rows.find? (fun r => r.id == st.nextId) = none)
    (ht : formatRFC3339 t1 = formatRFC3339 t2)
    (hs : parseIntStr s = some st.nextId) :
    createUser (sqlConn st) (some req) t1 t2 =
      (⟨201, true, RespBody.created st.nextId req.email req.name req.age
          (formatRFC3339 t2) "User created successfully"⟩,
       [DbOp.selectByEmail req.email,
        DbOp.insert req.email ("hashed_" ++ req.password) req.name req.age t1]) ∧
    getUser (sqlConn (applyOps st (createUser (sqlConn st) (some req) t1 t2).2)) s =
      (⟨200, true, RespBody.fetched st.nextId req.email req.name req.age
          (formatRFC3339 t2)⟩,
       [DbOp.selectById s]) := by
  simp only [passesValidation, Bool.and_eq_true, Bool.not_eq_true', decide_eq_false_iff_not,
    beq_eq_false_iff_ne, ne_eq, Bool.or_eq_false_iff] at hv
  obtain ⟨⟨⟨he, hp⟩, hn⟩, ha1, ha2⟩ := hv
  have h1 : createUser (sqlConn st) (some req) t1 t2 =
      (⟨201, true, RespBody.created st.nextId req.email req.name req.age
          (formatRFC3339 t2) "User created successfully"⟩,
       [DbOp.selectByEmail req.email,
        DbOp.insert req.email ("hashed_" ++ req.password) req.name req.age t1]) := by
    simp [createUser, he, hp, hn, sqlConn, selectIdByEmailSql, hnodup, ha1, ha2]
  have hs0 : s ≠ "" := by
    intro h0
    rw [h0] at hs
    exact Option.noConfusion hs
  refine ⟨h1, ?_⟩
  rw [h1]
  simp [getUser, hs0, sqlConn, selectUserByIdSql, applyOps, applyOp, hs, hfresh, ht]

/-- Witness for C3 as amended: registering against the empty store with both
clock readings at the epoch, then looking up id "1". -/
theorem c3_amended_witness :
    createUser (sqlConn ⟨[], 1⟩) (some ⟨"a@b.com", "password123", "Ann", 30⟩) 0 0 =
      (⟨201, true, RespBody.created 1 "a@b.com" "Ann" 30 (formatRFC3339 0)
          "User created successfully"⟩,
       [DbOp.selectByEmail "a@b.com",
        DbOp.insert "a@b.com" ("hashed_" ++ "password123") "Ann" 30 0]) ∧
    getUser (sqlConn (applyOps ⟨[], 1⟩
        (createUser (sqlConn ⟨[], 1⟩) (some ⟨"a@b.com", "password123", "Ann", 30⟩) 0 0).2)) "1" =
      (⟨200, true, RespBody.fetched 1 "a@b.com" "Ann" 30 (formatRFC3339 0)⟩,
       [DbOp.selectById "1"]) :=
  c3_amended ⟨[], 1⟩ ⟨"a@b.com", "password123", "Ann", 30⟩ 0 0 "1"
    (by decide) rfl rfl rfl (by decide)

/-- Helper: `takeWhile`/`dropWhile` on a list that starts with a block of
characters satisfying the predicate followed by one that does not. -/
theorem takeWhile_append_eq (p : Char → Bool) (xs : List Char) (y : Char) (ys : List Char)
    (hxs : ∀ x ∈ xs, p x = true) (hy : p y = false) :
    (xs ++ y :: ys).takeWhile p = xs ∧ (xs ++ y :: ys).dropWhile p = y :: ys := by
  induction xs with
  | nil => simp [List.takeWhile_cons, List.dropWhile_cons, hy]
  | cons a as ih =>
      have pa : p a = true := hxs a (List.mem_cons_self a as)
      have h2 := ih (fun x hx => hxs x (List.mem_cons_of_mem a hx))
      simp [List.takeWhile_cons, List.dropWhile_cons, pa, h2.1, h2.2]

/-- C7: the email check accepts "a@b.co" and rejects "not-an-email", and in
general it accepts exactly the strings of the shape
local-part ++ "@" ++ domain ++ "." ++ tld where the local part is a nonempty
run of local characters, the domain a nonempty run of domain characters
(dots allowed), and the tld at least two letters — the language of the
source regular expression. -/
theorem c7_email_format :
    emailMatch "not-an-email" = false ∧ emailMatch "a@b.co" = true ∧
    ∀ s : String, (emailMatch s = true ↔
      ∃ l d t : List Char,
        s.data = l ++ '@' :: (d ++ '.' :: t) ∧
        l ≠ [] ∧ l.all localChar = true ∧
        d ≠ [] ∧ d.all domChar = true ∧
        2 ≤ t.length ∧ t.all tldChar = true) := by
  refine ⟨by decide, by decide, fun s => ⟨?_, ?_⟩⟩
  · intro h
    simp only [emailMatch] at h
    split at h
    case h_2 => exact absurd h (by simp)
    case h_1 rest heq =>
      rw [Bool.and_eq_true] at h
      obtain ⟨hlen, hrest⟩ := h
      split at hrest
      case h_2 => exact absurd hrest (by simp)
      case h_1 l heq2 =>
        simp only [Bool.and_eq_true, Bool.not_eq_true', List.isEmpty_eq_false] at hrest
        obtain ⟨⟨hd, hl⟩, hloc⟩ := hrest
        set t0 := s.data.reverse.takeWhile tldChar with ht0
        set d0 := rest.takeWhile domChar with hd0
        have hsplit : s.data.reverse = t0 ++ '.' :: rest := by
          rw [← heq, ht0]
          exact (List.takeWhile_append_dropWhile tldChar s.data.reverse).symm
        have hsplit2 : rest = d0 ++ '@' :: l := by
          rw [← heq2, hd0]
          exact (List.takeWhile_append_dropWhile domChar rest).symm
        have hfull : s.data.reverse = t0 ++ '.' :: (d0 ++ '@' :: l) := by
          rw [hsplit, hsplit2]
        refine ⟨l.reverse, d0.reverse, t0.reverse, ?_, ?_, ?_, ?_, ?_, ?_, ?_⟩
        · calc s.data = s.data.reverse.reverse := (List.reverse_reverse _).symm
            _ = (t0 ++ '.' :: (d0 ++ '@' :: l)).reverse := by rw [hfull]
            _ = l.reverse ++ '@' :: (d0.reverse ++ '.' :: t0.reverse) := by
                simp [List.reverse_append, List.append_assoc]
        · simpa using hl
        · simpa [List.all_reverse] using hloc
        · simpa using hd
        · rw [List.all_reverse, List.all_eq_true]
          intro x hx
          rw [hd0] at hx
          exact List.mem_takeWhile_imp hx
        · rw [List.length_reverse]
          exact of_decide_eq_true hlen
        · rw [List.all_reverse, List.all_eq_true]
          intro x hx
          rw [ht0] at hx
          exact List.mem_takeWhile_imp hx
  · rintro ⟨l, d, t, hs, hl, hlc, hd, hdc, hlen, htc⟩
    have hts : ∀ x ∈ t.reverse, tldChar x = true := by
      rw [List.all_eq_true] at htc
      exact fun x hx => htc x (List.mem_reverse.mp hx)
    have hds : ∀ x ∈ d.reverse, domChar x = true := by
      rw [List.all_eq_true] at hdc
      exact fun x hx => hdc x (List.mem_reverse.mp hx)
    have hrev : s.data.reverse = t.reverse ++ '.' :: (d.reverse ++ '@' :: l.reverse) := by
      rw [hs]
      simp [List.reverse_append, List.append_assoc]
    have h1 := takeWhile_append_eq tldChar t.reverse '.' (d.reverse ++ '@' :: l.reverse)
      hts (by decide)
    have h2 := takeWhile_append_eq domChar d.reverse '@' l.reverse hds (by decide)
    simp [emailMatch, hrev, h1.1, h1.2, h2.1, h2.2, List.length_reverse, List.all_reverse,
      hl, hd, hlc, hlen, List.isEmpty_eq_false]
